import Mathlib

/-!
Shallow embedding of the arithmetic utility module `calc.py` of the
repository, together with proofs of its specified properties.

The module defines four free functions over Python numbers.  We embed the
operands as rationals (`ℚ`), which model Python's exact `int` arithmetic and
the ideal field semantics of its division; the fallible operations
(`multiply`, `divide`) return `Except PyError ℚ`, where `PyError` records the
concrete Python exception class together with the message string, exactly as
raised by the source.
-/

/-- A raised Python exception: its class name and its message, as in
`raise ValueError("...")`. -/
structure PyError where
  type : String
  msg : String
  deriving Repr, DecidableEq

namespace Calc

/-- Embedding of `calc.py`'s `add(a, b): return a + b`. -/
def add (a b : ℚ) : ℚ := a + b

/-- Embedding of `calc.py`'s `subtract(a, b): return a - b`. -/
def subtract (a b : ℚ) : ℚ := a - b

/-- Embedding of `calc.py`'s `multiply`:
`if a < 0 or b < 0: raise ValueError("Negative values are not allowed.")`
then `return a * b`. -/
def multiply (a b : ℚ) : Except PyError ℚ :=
  if a < 0 ∨ b < 0 then
    .error ⟨"ValueError", "Negative values are not allowed."⟩
  else
    .ok (a * b)

/-- Embedding of `calc.py`'s `divide`:
`if b == 0: raise ValueError("Cannot divide by zero.")`
then `return a / b`. -/
def divide (a b : ℚ) : Except PyError ℚ :=
  if b = 0 then
    .error ⟨"ValueError", "Cannot divide by zero."⟩
  else
    .ok (a / b)

/-- An `Except` outcome is a failure when it is an `error`. -/
def fails {ε α : Type} (r : Except ε α) : Prop :=
  ∃ e, r = Except.error e

instance {ε α : Type} [DecidableEq ε] [DecidableEq α] (r : Except ε α) :
    Decidable (fails r) := by
  cases r with
  | error e => exact isTrue ⟨e, rfl⟩
  | ok v => exact isFalse (by rintro ⟨e, h⟩; cases h)

end Calc

namespace Calc

/-- The `ValueError` raised by `multiply` for a negative operand; the spec
calls this condition `InvalidArgument`. -/
def invalidArgumentError : PyError :=
  ⟨"ValueError", "Negative values are not allowed."⟩

/-- The `ValueError` raised by `divide` for a zero divisor; the spec calls
this condition `DivisionByZero`. -/
def divisionByZeroError : PyError :=
  ⟨"ValueError", "Cannot divide by zero."⟩

end Calc

/-- C1: for every pair of operands with `a < 0` or `b < 0`, `multiply a b`
fails with the `InvalidArgument` error (the raised `ValueError`), returning
no product. -/
theorem C1_multiply_negative_fails (a b : ℚ) (h : a < 0 ∨ b < 0) :
    Calc.multiply a b = Except.error Calc.invalidArgumentError := by
  simp [Calc.multiply, Calc.invalidArgumentError, h]

/-- Witness for C1 at the concrete input `a = -1`, `b = 5`. -/
theorem C1_witness :
    Calc.multiply (-1) 5 = Except.error Calc.invalidArgumentError :=
  C1_multiply_negative_fails (-1) 5 (Or.inl (by norm_num))

/-- C2: `divide a b` fails with the `DivisionByZero` error exactly when the
divisor `b` is zero; in particular `divide a 0` always fails with it. -/
theorem C2_divide_zero_iff (a b : ℚ) :
    Calc.divide a b = Except.error Calc.divisionByZeroError ↔ b = 0 := by
  constructor
  · intro h
    by_contra hb
    simp [Calc.divide, hb] at h
  · intro hb
    simp [Calc.divide, hb, Calc.divisionByZeroError]

/-- C3: for non-negative operands, `multiply a b` succeeds and returns the
product `a * b`. -/
theorem C3_multiply_nonneg (a b : ℚ) (ha : 0 ≤ a) (hb : 0 ≤ b) :
    Calc.multiply a b = Except.ok (a * b) := by
  simp [Calc.multiply, not_lt.mpr ha, not_lt.mpr hb]

/-- Witness for C3 at the concrete input `a = 2`, `b = 3`. -/
theorem C3_witness : Calc.multiply 2 3 = Except.ok 6 := by
  have h := C3_multiply_nonneg 2 3 (by norm_num) (by norm_num)
  norm_num at h
  exact h

/-- C4: for every pair of operands with `b ≠ 0`, `divide a b` succeeds and
returns the quotient `a / b`. -/
theorem C4_divide_nonzero (a b : ℚ) (hb : b ≠ 0) :
    Calc.divide a b = Except.ok (a / b) := by
  simp [Calc.divide, hb]

/-- Witness for C4 at the concrete input `a = 10`, `b = 2`. -/
theorem C4_witness : Calc.divide 10 2 = Except.ok 5 := by
  have h := C4_divide_nonzero 10 2 (by norm_num)
  norm_num at h
  exact h

/-- C5: `add a b` returns `a + b` and `subtract a b` returns `a - b`; both
are total functions over the numeric operands and never fail. -/
theorem C5_add_subtract_total (a b : ℚ) :
    Calc.add a b = a + b ∧ Calc.subtract a b = a - b :=
  ⟨rfl, rfl⟩

/-- C6: the six concrete scenarios of the spec hold under standard
arithmetic semantics: `add 2 3 = 5`, `subtract 5 3 = 2`,
`multiply 2 3 = 6`, `multiply (-1) 5` fails with `InvalidArgument`,
`divide 6 0` fails with `DivisionByZero`, and `divide 10 2 = 5`. -/
theorem C6_concrete_scenarios :
    Calc.add 2 3 = 5 ∧
    Calc.subtract 5 3 = 2 ∧
    Calc.multiply 2 3 = Except.ok 6 ∧
    Calc.multiply (-1) 5 = Except.error Calc.invalidArgumentError ∧
    Calc.divide 6 0 = Except.error Calc.divisionByZeroError ∧
    Calc.divide 10 2 = Except.ok 5 := by
  refine ⟨by norm_num [Calc.add], by norm_num [Calc.subtract], ?_, ?_, ?_, ?_⟩
  · simp [Calc.multiply]; norm_num
  · simp [Calc.multiply, Calc.invalidArgumentError]
  · simp [Calc.divide, Calc.divisionByZeroError]
  · simp [Calc.divide]; norm_num

/-- C7: all four operations are deterministic — two calls of the same
operation on equal inputs have equal outcomes (value or error) — and, being
pure functions of their arguments in this embedding, modify no state. -/
theorem C7_deterministic (a b a' b' : ℚ) (ha : a = a') (hb : b = b') :
    Calc.add a b = Calc.add a' b' ∧
    Calc.subtract a b = Calc.subtract a' b' ∧
    Calc.multiply a b = Calc.multiply a' b' ∧
    Calc.divide a b = Calc.divide a' b' := by
  subst ha; subst hb
  exact ⟨rfl, rfl, rfl, rfl⟩

/-- Witness for C7 at the concrete inputs `a = a' = 2`, `b = b' = 3`. -/
theorem C7_witness :
    Calc.add 2 3 = Calc.add 2 3 ∧
    Calc.subtract 2 3 = Calc.subtract 2 3 ∧
    Calc.multiply 2 3 = Calc.multiply 2 3 ∧
    Calc.divide 2 3 = Calc.divide 2 3 :=
  C7_deterministic 2 3 2 3 rfl rfl

/-- C8: every failing `multiply` call and every failing `divide` call raise
the same concrete exception type, `ValueError`; the two error conditions are
distinguishable only by their message strings, which differ. -/
theorem C8_same_error_type (a b c d : ℚ) (hm : a < 0 ∨ b < 0) (hd : d = 0) :
    ∃ e₁ e₂ : PyError,
      Calc.multiply a b = Except.error e₁ ∧
      Calc.divide c d = Except.error e₂ ∧
      e₁.type = "ValueError" ∧ e₂.type = "ValueError" ∧ e₁.msg ≠ e₂.msg := by
  refine ⟨Calc.invalidArgumentError, Calc.divisionByZeroError, ?_, ?_, rfl, rfl, ?_⟩
  · simp [Calc.multiply, Calc.invalidArgumentError, hm]
  · simp [Calc.divide, hd, Calc.divisionByZeroError]
  · decide

/-- Witness for C8 at the concrete inputs `multiply (-1) 5` and
`divide 6 0`. -/
theorem C8_witness :
    ∃ e₁ e₂ : PyError,
      Calc.multiply (-1) 5 = Except.error e₁ ∧
      Calc.divide 6 0 = Except.error e₂ ∧
      e₁.type = "ValueError" ∧ e₂.type = "ValueError" ∧ e₁.msg ≠ e₂.msg :=
  C8_same_error_type (-1) 5 6 0 (Or.inl (by norm_num)) rfl

/-- C9: subtracting the second operand back after an addition recovers the
first operand exactly: `subtract (add a b) b = a`. -/
theorem C9_add_subtract_roundtrip (a b : ℚ) :
    Calc.subtract (Calc.add a b) b = a := by
  simp [Calc.add, Calc.subtract]

/-- C10: a zero operand is legal for multiplication — for every non-negative
`a`, both `multiply a 0` and `multiply 0 a` succeed and return `0`. -/
theorem C10_multiply_zero (a : ℚ) (ha : 0 ≤ a) :
    Calc.multiply a 0 = Except.ok 0 ∧ Calc.multiply 0 a = Except.ok 0 := by
  constructor
  · simp [Calc.multiply, not_lt.mpr ha]
  · simp [Calc.multiply, not_lt.mpr ha]

/-- Witness for C10 at the concrete input `a = 7`. -/
theorem C10_witness :
    Calc.multiply 7 0 = Except.ok 0 ∧ Calc.multiply 0 7 = Except.ok 0 :=
  C10_multiply_zero 7 (by norm_num)
